import Mathlib

/-!
Verification development for `itk::TubularMetricToPathFilter`
(src/itkCVLab/itkTubularMetricToPathFilter.h).

The filter extracts minimal paths in a positive cost field: it runs one
fast-marching front propagation from a start point and then, per end point,
a Runge-Kutta gradient descent along the characteristic directions.

Shallow embedding conventions:
* grid indices (`itk::Index<Dim>`) are `List Int`, dimension-agnostic;
* `double` values that the orchestrator only stores and forwards are `Rat`;
* scalar fields (`itk::Image`) are functions `List Int → Rat`, vector
  fields are `List Int → List Rat`;
* the two external engines (fast marching, RK4 descent) are fields of an
  `Engines` structure: deterministic functions, as their contract demands;
* fallible member functions return explicit outcome types; the C++
  undefined behaviour of an out-of-range `std::vector::operator[]` is a
  distinguished `vectorOutOfBounds` outcome.

Only the class header is in the repository; the `.txx` member definitions
(`GenerateData`, `ComputePaths`, `GetNumberOfPathsToExtract`,
`SetStartPoint`, `SetPathEndPoint`, `AddPathEndPoint`,
`ClearPathEndPoints`, the constructor) are modelled from the spec, as
marked on each definition.
-/

namespace TubularMetric

/-- Grid index (`itk::Index<Dim>`), dimension-agnostic. -/
abbrev IndexT := List Int

/-- A continuous-coordinate path vertex (`PathType::VertexType`). -/
abbrev VertexT := List Rat

/-- An extracted polyline: ordered vertex sequence. -/
abbrev PathT := List VertexT

/-- Scalar image over the grid (cost field, arrival-time field). -/
abbrev ScalarField := IndexT → Rat

/-- Vector image over the grid (characteristic-direction field). -/
abbrev DirectionField := IndexT → List Rat

/-- `itk::ImageRegion<Dim>`: an index corner plus a size per dimension. -/
structure RegionT where
  corner : List Int
  size : List Nat
deriving Repr, DecidableEq

/-- `ImageRegion::IsInside`: componentwise `corner ≤ p < corner + size`,
with matching dimensionality. -/
def RegionT.isInside (r : RegionT) (p : IndexT) : Bool :=
  p.length = r.corner.length && p.length = r.size.length &&
    (List.zip p (List.zip r.corner r.size)).all
      (fun q => q.2.1 ≤ q.1 && q.1 < q.2.1 + (q.2.2 : Int))

/-- The four numeric control parameters handed to the descent filter. -/
structure TraceParams where
  terminationDistanceFactor : Rat
  descentStepFactor : Rat
  oscillationFactor : Rat
  nbMaxIter : Nat
deriving Repr, DecidableEq

/-- The member state of a `TubularMetricToPathFilter` object, field for
field after the private section of the header, plus the pipeline pieces
the member functions touch: the filter outputs (`GetOutput(ind)`) and the
`Modified()` staleness notification of the pipeline. -/
structure FilterState where
  m_TerminationDistanceFactor : Rat
  m_OscillationFactor : Rat
  m_DescentStepFactor : Rat
  m_NbMaxIter : Nat
  m_StartPoint : IndexT
  m_IsStartPointGiven : Bool
  m_EndPointList : List IndexT
  m_EndPointDistanceList : List Rat
  m_RegionToProcess : RegionT
  outputPathList : List PathT
  modifiedFlag : Bool
deriving Repr, DecidableEq

/-- Modelled from the spec: the constructor (defined in the missing
`.txx`) leaves the start point "not given", both lists empty, and the
control parameters at some defaults (their exact values are irrelevant to
every claim; zeros are used). -/
def initialFilter : FilterState :=
  { m_TerminationDistanceFactor := 0
    m_OscillationFactor := 0
    m_DescentStepFactor := 0
    m_NbMaxIter := 0
    m_StartPoint := []
    m_IsStartPointGiven := false
    m_EndPointList := []
    m_EndPointDistanceList := []
    m_RegionToProcess := { corner := [], size := [] }
    outputPathList := []
    modifiedFlag := false }

/-- Modelled from the spec: `GetNumberOfPathsToExtract` (defined in the
missing `.txx`) "equals current target-list length". -/
def GetNumberOfPathsToExtract (s : FilterState) : Nat :=
  s.m_EndPointList.length

/-- `SetEndPointList` (header, lines 131-135): assigns the member list
wholesale and calls `this->Modified()`. -/
def SetEndPointList (s : FilterState) (endPointList : List IndexT) :
    FilterState :=
  { s with m_EndPointList := endPointList, modifiedFlag := true }

/-- Modelled from the spec: `SetStartPoint` (missing `.txx`) "stores
index, marks given ... pure state update plus change notification". -/
def SetStartPoint (s : FilterState) (startPointIndex : IndexT) :
    FilterState :=
  { s with m_StartPoint := startPointIndex, m_IsStartPointGiven := true,
           modifiedFlag := true }

/-- Modelled from the spec: `SetPathEndPoint` (missing `.txx`) "clears
the target list and inserts exactly one element". -/
def SetPathEndPoint (s : FilterState) (point : IndexT) : FilterState :=
  { s with m_EndPointList := [point], modifiedFlag := true }

/-- Modelled from the spec: `AddPathEndPoint` (missing `.txx`) "appends
one element, preserving prior entries". -/
def AddPathEndPoint (s : FilterState) (index : IndexT) : FilterState :=
  { s with m_EndPointList := s.m_EndPointList ++ [index],
           modifiedFlag := true }

/-- Modelled from the spec: `ClearPathEndPoints` (missing `.txx`)
"empties the list". -/
def ClearPathEndPoints (s : FilterState) : FilterState :=
  { s with m_EndPointList := [], modifiedFlag := true }

/-- Modelled from the spec: `SetRegionToProcess` (missing `.txx`) "stores
an optional restriction". -/
def SetRegionToProcess (s : FilterState) (region : RegionT) :
    FilterState :=
  { s with m_RegionToProcess := region, modifiedFlag := true }

/-- `itkSetMacro(TerminationDistanceFactor, double)` (header, line 170);
the standard macro expansion assigns and calls `Modified()` when the new
value differs. -/
def SetTerminationDistanceFactor (s : FilterState) (v : Rat) :
    FilterState :=
  if s.m_TerminationDistanceFactor ≠ v then
    { s with m_TerminationDistanceFactor := v, modifiedFlag := true }
  else s

/-- `itkGetMacro(TerminationDistanceFactor, double)` (header, line 171). -/
def GetTerminationDistanceFactor (s : FilterState) : Rat :=
  s.m_TerminationDistanceFactor

/-- `itkSetMacro(DescentStepFactor, double)` (header, line 173). -/
def SetDescentStepFactor (s : FilterState) (v : Rat) : FilterState :=
  if s.m_DescentStepFactor ≠ v then
    { s with m_DescentStepFactor := v, modifiedFlag := true }
  else s

/-- `itkGetMacro(DescentStepFactor, double)` (header, line 174). -/
def GetDescentStepFactor (s : FilterState) : Rat :=
  s.m_DescentStepFactor

/-- `itkSetMacro(OscillationFactor, double)` (header, line 176). -/
def SetOscillationFactor (s : FilterState) (v : Rat) : FilterState :=
  if s.m_OscillationFactor ≠ v then
    { s with m_OscillationFactor := v, modifiedFlag := true }
  else s

/-- `itkGetMacro(OscillationFactor, double)` (header, line 177). -/
def GetOscillationFactor (s : FilterState) : Rat :=
  s.m_OscillationFactor

/-- `itkSetMacro(NbMaxIter, unsigned int)` (header, line 179). -/
def SetNbMaxIter (s : FilterState) (v : Nat) : FilterState :=
  if s.m_NbMaxIter ≠ v then
    { s with m_NbMaxIter := v, modifiedFlag := true }
  else s

/-- `itkGetMacro(NbMaxIter, unsigned int)` (header, line 180). -/
def GetNbMaxIter (s : FilterState) : Nat :=
  s.m_NbMaxIter

/-- Outcome of `GetEndPointDistance`: the returned double, the
`itkExceptionMacro` throw, or the undefined behaviour of indexing
`m_EndPointDistanceList` past its size. -/
inductive DistanceOutcome where
  | ok (d : Rat)
  | indexException
  | vectorOutOfBounds
deriving Repr, DecidableEq

/-- `GetEndPointDistance` (header, lines 138-146): throws when
`ind >= GetNumberOfPathsToExtract()`, otherwise returns
`m_EndPointDistanceList[ind]` — a `std::vector::operator[]` access that
is undefined behaviour when `ind` is not below the vector's size. -/
def GetEndPointDistance (s : FilterState) (ind : Nat) : DistanceOutcome :=
  if ind ≥ GetNumberOfPathsToExtract s then .indexException
  else
    match s.m_EndPointDistanceList[ind]? with
    | some d => .ok d
    | none => .vectorOutOfBounds

/-- Outcome of `GetPath`: the path, the `itkExceptionMacro` throw, or a
null smart pointer when `GetOutput(ind)` has no such output. -/
inductive PathOutcome where
  | ok (p : PathT)
  | indexException
  | nullOutput
deriving Repr, DecidableEq

/-- `GetPath` (header, lines 149-157): throws when
`ind >= GetNumberOfPathsToExtract()`, otherwise returns
`this->GetOutput(ind)`. -/
def GetPath (s : FilterState) (ind : Nat) : PathOutcome :=
  if ind ≥ GetNumberOfPathsToExtract s then .indexException
  else
    match s.outputPathList[ind]? with
    | some p => .ok p
    | none => .nullOutput

/-- The two external collaborators, as deterministic functions (their
contract demands determinism for fixed inputs).

`propagate`: the fast-marching engine. Input: cost field, active region,
seed point; output: arrival-time field and characteristic-direction field.

`trace`: the RK4 characteristic-descent engine. Input: direction field,
arrival-time field, one target point, the four control parameters;
output: ordered vertex sequence (target-to-start order) and the step
count actually used. -/
structure Engines where
  propagate : ScalarField → RegionT → IndexT → ScalarField × DirectionField
  trace : DirectionField → ScalarField → IndexT → TraceParams →
    PathT × Nat

/-- The four control parameters currently stored in the filter state. -/
def FilterState.params (s : FilterState) : TraceParams :=
  { terminationDistanceFactor := s.m_TerminationDistanceFactor
    descentStepFactor := s.m_DescentStepFactor
    oscillationFactor := s.m_OscillationFactor
    nbMaxIter := s.m_NbMaxIter }

/-- Modelled from the spec: the per-target body of `ComputePaths`
(missing `.txx`). A target inside the active region is traced with the
RK4 engine and paired with "the distance value read from
ArrivalTimeField at the target's initial position"; a target outside the
region is a per-target failure: "the resulting path for that index is
empty and its distance is the best-effort arrival-time sample". -/
def traceTarget (E : Engines) (arrival : ScalarField)
    (directions : DirectionField) (region : RegionT) (p : TraceParams)
    (target : IndexT) : PathT × Rat :=
  if region.isInside target then
    ((E.trace directions arrival target p).1, arrival target)
  else
    ([], arrival target)

/-- Configuration errors surfaced by `GenerateData`
(`itkExceptionMacro` throws). -/
inductive ConfigError where
  | startPointNotGiven
  | emptyTargetList
  | startPointOutsideRegion
deriving Repr, DecidableEq

/-- Modelled from the spec: `GenerateData` / `ComputePaths` (missing
`.txx`). Configuration errors ("start point not given; target list empty
at run time; start point ... outside the active region", §7) are checked
first; then the propagation engine runs once over the region seeded at
the start point, and each end point in list order is traced by
`traceTarget` against the shared arrival and direction fields. The run
replaces the outputs and `m_EndPointDistanceList` wholesale and leaves
configuration untouched. -/
def runOnce (E : Engines) (cost : ScalarField) (s : FilterState) :
    Except ConfigError FilterState :=
  if s.m_IsStartPointGiven = false then .error .startPointNotGiven
  else if s.m_EndPointList.isEmpty then .error .emptyTargetList
  else if s.m_RegionToProcess.isInside s.m_StartPoint = false then
    .error .startPointOutsideRegion
  else
    let fields := E.propagate cost s.m_RegionToProcess s.m_StartPoint
    let results := s.m_EndPointList.map
      (traceTarget E fields.1 fields.2 s.m_RegionToProcess s.params)
    .ok { s with outputPathList := results.map Prod.fst,
                 m_EndPointDistanceList := results.map Prod.snd,
                 modifiedFlag := false }

/-- A naive variant of `runOnce` that re-invokes the propagation engine
once per target instead of sharing one invocation; used to state the
refinement-equivalence claim about the single shared propagation pass. -/
def runNaive (E : Engines) (cost : ScalarField) (s : FilterState) :
    Except ConfigError FilterState :=
  if s.m_IsStartPointGiven = false then .error .startPointNotGiven
  else if s.m_EndPointList.isEmpty then .error .emptyTargetList
  else if s.m_RegionToProcess.isInside s.m_StartPoint = false then
    .error .startPointOutsideRegion
  else
    let results := s.m_EndPointList.map (fun target =>
      let fields := E.propagate cost s.m_RegionToProcess s.m_StartPoint
      traceTarget E fields.1 fields.2 s.m_RegionToProcess s.params target)
    .ok { s with outputPathList := results.map Prod.fst,
                 m_EndPointDistanceList := results.map Prod.snd,
                 modifiedFlag := false }

/-- Number of fast-marching invocations a run performs: `runOnce` reaches
its single `E.propagate` call exactly when every configuration check
passes, independently of how many targets are listed. -/
def propagationInvocations (s : FilterState) : Nat :=
  if s.m_IsStartPointGiven = false then 0
  else if s.m_EndPointList.isEmpty then 0
  else if s.m_RegionToProcess.isInside s.m_StartPoint = false then 0
  else 1

/-- The result entry a run computes for one target: the traced path and
the sampled distance, against the single shared propagation result. -/
def runEntry (E : Engines) (cost : ScalarField) (s : FilterState) :
    IndexT → PathT × Rat :=
  let fields := E.propagate cost s.m_RegionToProcess s.m_StartPoint
  traceTarget E fields.1 fields.2 s.m_RegionToProcess s.params

/-- Concrete engines for evaluating the model on closed inputs: the
propagation returns the cost field itself as arrival-time field and a
constant direction field; the tracer returns a one-vertex path and a
step count of 3. -/
def demoEngines : Engines :=
  { propagate := fun cost _region _seed => (cost, fun _p => [1, 0])
    trace := fun _dirs _arrival _target _params => ([[0, 0]], 3) }

/-- A constant cost field for closed evaluations. -/
def demoCost : ScalarField := fun _p => 7

/-- A concrete 11x11 region around the origin. -/
def demoRegion : RegionT := { corner := [-5, -5], size := [11, 11] }

/-- A concretely configured filter, reached from the freshly constructed
filter by the public setters: start point at the origin, region
`demoRegion`, a single end point. -/
def demoConfigured : FilterState :=
  SetPathEndPoint
    (SetRegionToProcess (SetStartPoint initialFilter [0, 0]) demoRegion)
    [1, 0]

/-- The state `demoConfigured` reaches after one successful run with
`demoEngines` over `demoCost`: one traced path and one sampled
distance. -/
def demoRunResult : FilterState :=
  { demoConfigured with
    outputPathList := [[[0, 0]]],
    m_EndPointDistanceList := [7],
    modifiedFlag := false }

/-- The configured filter with its target list replaced by three
targets, the middle one outside `demoRegion`. -/
def demoThreeTargets : FilterState :=
  SetEndPointList demoConfigured [[1, 0], [9, 9], [2, 2]]

end TubularMetric

namespace TubularMetric

theorem runOnce_ok_of_valid (E : Engines) (cost : ScalarField)
    (s : FilterState)
    (hgiven : s.m_IsStartPointGiven = true)
    (hne : s.m_EndPointList.isEmpty = false)
    (hstart : s.m_RegionToProcess.isInside s.m_StartPoint = true) :
    runOnce E cost s = .ok { s with
      outputPathList :=
        s.m_EndPointList.map (fun t => (runEntry E cost s t).1),
      m_EndPointDistanceList :=
        s.m_EndPointList.map (fun t => (runEntry E cost s t).2),
      modifiedFlag := false } := by
  simp [runOnce, hgiven, hne, hstart, runEntry, Function.comp]

theorem runOnce_ok_inv (E : Engines) (cost : ScalarField)
    (s s1 : FilterState) (h : runOnce E cost s = .ok s1) :
    s.m_IsStartPointGiven = true ∧ s.m_EndPointList.isEmpty = false ∧
    s.m_RegionToProcess.isInside s.m_StartPoint = true ∧
    s1 = { s with
      outputPathList :=
        s.m_EndPointList.map (fun t => (runEntry E cost s t).1),
      m_EndPointDistanceList :=
        s.m_EndPointList.map (fun t => (runEntry E cost s t).2),
      modifiedFlag := false } := by
  cases hgiven : s.m_IsStartPointGiven with
  | false => simp [runOnce, hgiven] at h
  | true =>
    cases hne : s.m_EndPointList.isEmpty with
    | true => simp [runOnce, hgiven, hne] at h
    | false =>
      cases hstart : s.m_RegionToProcess.isInside s.m_StartPoint with
      | false => simp [runOnce, hgiven, hne, hstart] at h
      | true =>
        rw [runOnce_ok_of_valid E cost s hgiven hne hstart] at h
        refine ⟨rfl, rfl, rfl, ?_⟩
        rw [← hgiven]
        exact (Except.ok.inj h).symm

/-- C1: for every index at or above the current number of paths to
extract, `GetPath(i)` and `GetEndPointDistance(i)` throw the
index-out-of-bounds exception and return no value, default or
otherwise. -/
theorem getAccessors_signal_out_of_range (s : FilterState) (ind : Nat)
    (h : ind ≥ GetNumberOfPathsToExtract s) :
    GetEndPointDistance s ind = .indexException ∧
    GetPath s ind = .indexException := by
  constructor
  · simp [GetEndPointDistance, h]
  · simp [GetPath, h]

/-- Witness for C1 at the freshly constructed filter and index 0. -/
theorem getAccessors_signal_out_of_range_witness :
    0 ≥ GetNumberOfPathsToExtract initialFilter ∧
    GetEndPointDistance initialFilter 0 = .indexException ∧
    GetPath initialFilter 0 = .indexException :=
  ⟨by decide,
   (getAccessors_signal_out_of_range initialFilter 0 (by decide)).1,
   (getAccessors_signal_out_of_range initialFilter 0 (by decide)).2⟩

/-- C8: `SetEndPointList(L)` stores exactly `L`, element for element and
in the caller's order, and raises the modification notification, so the
cached results are marked stale. -/
theorem setEndPointList_replaces_and_notifies (s : FilterState)
    (L : List IndexT) :
    (SetEndPointList s L).m_EndPointList = L ∧
    (SetEndPointList s L).modifiedFlag = true :=
  ⟨rfl, rfl⟩

/-- C9: for each of the four control parameters, setting a value and
then reading it back through the paired getter yields exactly that
value, and the setter leaves the other three parameters unchanged. -/
theorem control_params_set_get_roundtrip (s : FilterState) (v : Rat)
    (n : Nat) :
    (GetTerminationDistanceFactor (SetTerminationDistanceFactor s v) = v ∧
     GetDescentStepFactor (SetTerminationDistanceFactor s v) =
       GetDescentStepFactor s ∧
     GetOscillationFactor (SetTerminationDistanceFactor s v) =
       GetOscillationFactor s ∧
     GetNbMaxIter (SetTerminationDistanceFactor s v) = GetNbMaxIter s) ∧
    (GetDescentStepFactor (SetDescentStepFactor s v) = v ∧
     GetTerminationDistanceFactor (SetDescentStepFactor s v) =
       GetTerminationDistanceFactor s ∧
     GetOscillationFactor (SetDescentStepFactor s v) =
       GetOscillationFactor s ∧
     GetNbMaxIter (SetDescentStepFactor s v) = GetNbMaxIter s) ∧
    (GetOscillationFactor (SetOscillationFactor s v) = v ∧
     GetTerminationDistanceFactor (SetOscillationFactor s v) =
       GetTerminationDistanceFactor s ∧
     GetDescentStepFactor (SetOscillationFactor s v) =
       GetDescentStepFactor s ∧
     GetNbMaxIter (SetOscillationFactor s v) = GetNbMaxIter s) ∧
    (GetNbMaxIter (SetNbMaxIter s n) = n ∧
     GetTerminationDistanceFactor (SetNbMaxIter s n) =
       GetTerminationDistanceFactor s ∧
     GetDescentStepFactor (SetNbMaxIter s n) = GetDescentStepFactor s ∧
     GetOscillationFactor (SetNbMaxIter s n) =
       GetOscillationFactor s) := by
  unfold GetTerminationDistanceFactor GetDescentStepFactor
    GetOscillationFactor GetNbMaxIter SetTerminationDistanceFactor
    SetDescentStepFactor SetOscillationFactor SetNbMaxIter
  refine ⟨⟨?_, ?_, ?_, ?_⟩, ⟨?_, ?_, ?_, ?_⟩, ⟨?_, ?_, ?_, ?_⟩,
    ⟨?_, ?_, ?_, ?_⟩⟩ <;> (split <;> simp_all)

/-- C6: invoking extraction while the start point has not been given, or
while the target list is empty, signals a configuration error at that
call. -/
theorem run_rejects_invalid_config (E : Engines) (cost : ScalarField)
    (s : FilterState)
    (h : s.m_IsStartPointGiven = false ∨ s.m_EndPointList = []) :
    ∃ e : ConfigError, runOnce E cost s = .error e := by
  rcases h with h | h
  · exact ⟨.startPointNotGiven, by simp [runOnce, h]⟩
  · cases hgiven : s.m_IsStartPointGiven with
    | false => exact ⟨.startPointNotGiven, by simp [runOnce, hgiven]⟩
    | true => exact ⟨.emptyTargetList, by simp [runOnce, hgiven, h]⟩

/-- Witness for C6: the freshly constructed filter (start point not
given) is rejected by the run. -/
theorem run_rejects_invalid_config_witness :
    (initialFilter.m_IsStartPointGiven = false ∨
      initialFilter.m_EndPointList = []) ∧
    ∃ e : ConfigError,
      runOnce demoEngines demoCost initialFilter = .error e :=
  ⟨Or.inl rfl,
   run_rejects_invalid_config demoEngines demoCost initialFilter
     (Or.inl rfl)⟩

/-- C5: the number of paths to extract equals the length of the current
end-point list, and a successful run produces exactly that many paths
and distances, the entry at index i coming from the end point at index
i. -/
theorem result_cardinality_matches_target_list (E : Engines)
    (cost : ScalarField) (s s1 : FilterState) :
    GetNumberOfPathsToExtract s = s.m_EndPointList.length ∧
    (runOnce E cost s = .ok s1 →
      s1.outputPathList.length = GetNumberOfPathsToExtract s ∧
      s1.m_EndPointDistanceList.length = GetNumberOfPathsToExtract s ∧
      ∀ (i : Nat) (t : IndexT), s.m_EndPointList[i]? = some t →
        s1.outputPathList[i]? = some (runEntry E cost s t).1 ∧
        s1.m_EndPointDistanceList[i]? =
          some (runEntry E cost s t).2) := by
  refine ⟨rfl, fun h => ?_⟩
  obtain ⟨hg, hn, hs, rfl⟩ := runOnce_ok_inv E cost s s1 h
  refine ⟨by simp [GetNumberOfPathsToExtract],
    by simp [GetNumberOfPathsToExtract], ?_⟩
  intro i t ht
  constructor <;> simp [List.getElem?_map, ht]

/-- Witness for C5 on the concrete configured filter: the run succeeds
and yields one path and one distance for the single end point. -/
theorem result_cardinality_matches_target_list_witness :
    runOnce demoEngines demoCost demoConfigured = .ok demoRunResult ∧
    demoRunResult.outputPathList.length =
      GetNumberOfPathsToExtract demoConfigured ∧
    demoRunResult.m_EndPointDistanceList.length =
      GetNumberOfPathsToExtract demoConfigured := by
  have h := (result_cardinality_matches_target_list demoEngines demoCost
    demoConfigured demoRunResult).2 rfl
  exact ⟨rfl, h.1, h.2.1⟩

/-- C2: on a successful run, the distance recorded for a target inside
the active region is the arrival-time field sampled at the target's
initial position (the tracer itself reports no distance; the polyline's
integrated length never enters). -/
theorem distance_equals_arrival_sample (E : Engines)
    (cost : ScalarField) (s s1 : FilterState)
    (h : runOnce E cost s = .ok s1) (i : Nat) (t : IndexT)
    (ht : s.m_EndPointList[i]? = some t)
    (hin : s.m_RegionToProcess.isInside t = true) :
    s1.m_EndPointDistanceList[i]? =
      some ((E.propagate cost s.m_RegionToProcess s.m_StartPoint).1 t) := by
  obtain ⟨hg, hn, hs, rfl⟩ := runOnce_ok_inv E cost s s1 h
  simp [List.getElem?_map, ht, runEntry, traceTarget, hin]

/-- Witness for C2 on the concrete configured filter: the recorded
distance equals the arrival field (the cost field itself under
`demoEngines`) at the end point. -/
theorem distance_equals_arrival_sample_witness :
    runOnce demoEngines demoCost demoConfigured = .ok demoRunResult ∧
    demoConfigured.m_EndPointList[0]? = some [1, 0] ∧
    demoConfigured.m_RegionToProcess.isInside [1, 0] = true ∧
    demoRunResult.m_EndPointDistanceList[0]? =
      some ((demoEngines.propagate demoCost
        demoConfigured.m_RegionToProcess demoConfigured.m_StartPoint).1
          [1, 0]) :=
  ⟨rfl, rfl, rfl,
   distance_equals_arrival_sample demoEngines demoCost demoConfigured
     demoRunResult rfl 0 [1, 0] rfl rfl⟩

/-- C7: running again with no configuration change in between succeeds
and reproduces the same paths and the same distances. -/
theorem rerun_reproduces_results (E : Engines) (cost : ScalarField)
    (s s1 : FilterState) (h : runOnce E cost s = .ok s1) :
    ∃ s2, runOnce E cost s1 = .ok s2 ∧
      s2.outputPathList = s1.outputPathList ∧
      s2.m_EndPointDistanceList = s1.m_EndPointDistanceList := by
  obtain ⟨hg, hn, hs, rfl⟩ := runOnce_ok_inv E cost s s1 h
  exact ⟨_, runOnce_ok_of_valid E cost _ hg hn hs, rfl, rfl⟩

/-- Witness for C7 on the concrete configured filter. -/
theorem rerun_reproduces_results_witness :
    runOnce demoEngines demoCost demoConfigured = .ok demoRunResult ∧
    ∃ s2, runOnce demoEngines demoCost demoRunResult = .ok s2 ∧
      s2.outputPathList = demoRunResult.outputPathList ∧
      s2.m_EndPointDistanceList = demoRunResult.m_EndPointDistanceList :=
  ⟨rfl, rerun_reproduces_results demoEngines demoCost demoConfigured
    demoRunResult rfl⟩

/-- C4: a valid run performs exactly one propagation invocation,
independent of how many targets are listed, and its results equal those
of the naive variant that recomputes the propagation per target. -/
theorem shared_propagation_equiv_naive (E : Engines)
    (cost : ScalarField) (s : FilterState)
    (hgiven : s.m_IsStartPointGiven = true)
    (hne : s.m_EndPointList.isEmpty = false)
    (hstart : s.m_RegionToProcess.isInside s.m_StartPoint = true) :
    propagationInvocations s = 1 ∧
    (∀ L : List IndexT, L.isEmpty = false →
      propagationInvocations (SetEndPointList s L) = 1) ∧
    runOnce E cost s = runNaive E cost s := by
  refine ⟨by simp [propagationInvocations, hgiven, hne, hstart], ?_, rfl⟩
  intro L hL
  simp [propagationInvocations, SetEndPointList, hgiven, hstart, hL]

/-- Witness for C4 on the concrete configured filter, with the target
count also varied to three. -/
theorem shared_propagation_equiv_naive_witness :
    propagationInvocations demoConfigured = 1 ∧
    propagationInvocations
      (SetEndPointList demoConfigured [[1, 0], [2, 2], [3, 3]]) = 1 ∧
    runOnce demoEngines demoCost demoConfigured =
      runNaive demoEngines demoCost demoConfigured := by
  have h := shared_propagation_equiv_naive demoEngines demoCost
    demoConfigured rfl rfl rfl
  exact ⟨h.1, h.2.1 [[1, 0], [2, 2], [3, 3]] rfl, h.2.2⟩

/-- C3: when exactly one listed target lies outside the active region,
the run still succeeds, records the empty-path sentinel at that target's
index with the best-effort sampled distance, and every other entry is
identical to what the run without the failing target produces. -/
theorem one_failing_target_isolated (E : Engines) (cost : ScalarField)
    (s : FilterState) (pre post : List IndexT) (bad : IndexT)
    (hlist : s.m_EndPointList = pre ++ bad :: post)
    (hbad : s.m_RegionToProcess.isInside bad = false)
    (hgiven : s.m_IsStartPointGiven = true)
    (hstart : s.m_RegionToProcess.isInside s.m_StartPoint = true)
    (hne : (pre ++ post).isEmpty = false) :
    ∃ s1 s2,
      runOnce E cost s = .ok s1 ∧
      runOnce E cost (SetEndPointList s (pre ++ post)) = .ok s2 ∧
      s1.outputPathList =
        pre.map (fun t => (runEntry E cost s t).1) ++
          [] :: post.map (fun t => (runEntry E cost s t).1) ∧
      s2.outputPathList =
        pre.map (fun t => (runEntry E cost s t).1) ++
          post.map (fun t => (runEntry E cost s t).1) ∧
      s1.m_EndPointDistanceList =
        pre.map (fun t => (runEntry E cost s t).2) ++
          (runEntry E cost s bad).2 ::
            post.map (fun t => (runEntry E cost s t).2) ∧
      s2.m_EndPointDistanceList =
        pre.map (fun t => (runEntry E cost s t).2) ++
          post.map (fun t => (runEntry E cost s t).2) := by
  have hne1 : s.m_EndPointList.isEmpty = false := by
    rw [hlist]; cases pre <;> simp
  refine ⟨_, _, runOnce_ok_of_valid E cost s hgiven hne1 hstart,
    runOnce_ok_of_valid E cost _ hgiven hne hstart, ?_, ?_, ?_, ?_⟩
  · simp [hlist, runEntry, traceTarget, hbad]
  · simp [SetEndPointList, runEntry, FilterState.params]
  · simp [hlist]
  · simp [SetEndPointList, runEntry, FilterState.params]

/-- Witness for C3: three concrete targets with the middle one outside
the region; the sentinel sits at index 1 and the outer entries agree
with the two-target run. -/
theorem one_failing_target_isolated_witness :
    ∃ s1 s2,
      runOnce demoEngines demoCost demoThreeTargets = .ok s1 ∧
      runOnce demoEngines demoCost
        (SetEndPointList demoThreeTargets ([[1, 0]] ++ [[2, 2]])) =
          .ok s2 ∧
      s1.outputPathList =
        ([[1, 0]] : List IndexT).map
            (fun t => (runEntry demoEngines demoCost demoThreeTargets t).1)
          ++ [] :: ([[2, 2]] : List IndexT).map
            (fun t =>
              (runEntry demoEngines demoCost demoThreeTargets t).1) ∧
      s2.outputPathList =
        ([[1, 0]] : List IndexT).map
            (fun t => (runEntry demoEngines demoCost demoThreeTargets t).1)
          ++ ([[2, 2]] : List IndexT).map
            (fun t =>
              (runEntry demoEngines demoCost demoThreeTargets t).1) ∧
      s1.m_EndPointDistanceList =
        ([[1, 0]] : List IndexT).map
            (fun t => (runEntry demoEngines demoCost demoThreeTargets t).2)
          ++ (runEntry demoEngines demoCost demoThreeTargets [9, 9]).2 ::
            ([[2, 2]] : List IndexT).map
              (fun t =>
                (runEntry demoEngines demoCost demoThreeTargets t).2) ∧
      s2.m_EndPointDistanceList =
        ([[1, 0]] : List IndexT).map
            (fun t => (runEntry demoEngines demoCost demoThreeTargets t).2)
          ++ ([[2, 2]] : List IndexT).map
            (fun t =>
              (runEntry demoEngines demoCost demoThreeTargets t).2) :=
  one_failing_target_isolated demoEngines demoCost demoThreeTargets
    [[1, 0]] [[2, 2]] [9, 9] rfl rfl rfl rfl rfl

/-- C10: the bounds check of `GetEndPointDistance` is made only against
the end-point list length, the subsequent vector access is in bounds
only under the invariant that the distance list is at least that long,
and the invariant is violated in a reachable state: append an end point
after a successful run and query the new index before re-running. -/
theorem distance_index_check_gap (s : FilterState) (ind : Nat) :
    (ind < GetNumberOfPathsToExtract s →
      GetEndPointDistance s ind ≠ .indexException) ∧
    (ind < GetNumberOfPathsToExtract s →
      GetNumberOfPathsToExtract s ≤ s.m_EndPointDistanceList.length →
      ∃ d, GetEndPointDistance s ind = .ok d) ∧
    (∃ s1, runOnce demoEngines demoCost demoConfigured = .ok s1 ∧
      1 < GetNumberOfPathsToExtract (AddPathEndPoint s1 [5, 0]) ∧
      GetEndPointDistance (AddPathEndPoint s1 [5, 0]) 1 =
        .vectorOutOfBounds) := by
  refine ⟨?_, ?_, demoRunResult, rfl, by decide, rfl⟩
  · intro h
    have hlt : ¬ ind ≥ GetNumberOfPathsToExtract s := Nat.not_le.mpr h
    cases hx : s.m_EndPointDistanceList[ind]? <;>
      simp [GetEndPointDistance, hlt, hx]
  · intro h hinv
    have hlen : ind < s.m_EndPointDistanceList.length :=
      lt_of_lt_of_le h hinv
    have hlt : ¬ ind ≥ GetNumberOfPathsToExtract s := Nat.not_le.mpr h
    exact ⟨s.m_EndPointDistanceList[ind],
      by simp [GetEndPointDistance, hlt, List.getElem?_eq_getElem hlen]⟩

/-- Witness for C10 at the post-run state and index 0, where the
invariant holds and the access succeeds. -/
theorem distance_index_check_gap_witness :
    GetEndPointDistance demoRunResult 0 ≠ .indexException ∧
    (∃ d, GetEndPointDistance demoRunResult 0 = .ok d) ∧
    (∃ s1, runOnce demoEngines demoCost demoConfigured = .ok s1 ∧
      1 < GetNumberOfPathsToExtract (AddPathEndPoint s1 [5, 0]) ∧
      GetEndPointDistance (AddPathEndPoint s1 [5, 0]) 1 =
        .vectorOutOfBounds) := by
  have h := distance_index_check_gap demoRunResult 0
  exact ⟨h.1 (by decide), h.2.1 (by decide) (by decide), h.2.2⟩

end TubularMetric
